import Mathlib

/-!
Verification of `WriteSpecTool._execute` from
`superagi/tools/code/write_spec.py`.

The tool fills a fixed prompt template with the agent goals and the task
description, asks the LLM for a specification with a computed token budget,
writes the result to a file through the resource manager, and maps
success/failure to a string.  Collaborators that live outside this file
(the LLM, `TokenCounter`, `AgentPromptBuilder`, the resource manager) are
modelled as oracles: fallible calls return `Except String α`, where an
`error e` value stands for a raised Python exception whose rendering is `e`.
The embedding also records the externally visible calls (chat completion,
file write) in an event trace.
-/

/-- Python `str.replace` on character lists — left-to-right, non-overlapping,
replaces every occurrence; the inserted replacement is not rescanned.
`fuel` bounds the recursion; one unit per consumed character suffices. -/
def replaceFuel : Nat → List Char → List Char → List Char → List Char
  | 0, l, _, _ => l
  | _ + 1, [], _, _ => []
  | fuel + 1, c :: rest, old, new =>
    if List.isPrefixOf old (c :: rest) then
      new ++ replaceFuel fuel (List.drop (old.length - 1) rest) old new
    else
      c :: replaceFuel fuel rest old new

/-- Python `str.replace` (all occurrences) lifted to `String`. -/
def pyReplace (s old new : String) : String :=
  ⟨replaceFuel s.data.length s.data old.data new.data⟩

/-- Python `str.startswith` lifted to `String`. -/
def pyStartsWith (s pre : String) : Bool :=
  List.isPrefixOf pre.data s.data

/-- Python `sub in s` substring test on character lists. -/
def strContains : List Char → List Char → Bool
  | [], sub => List.isPrefixOf sub []
  | c :: rest, sub => List.isPrefixOf sub (c :: rest) || strContains rest sub

/-- One chat message, the Python dict `\x7b"role": r, "content": c\x7d`. -/
structure Message where
  role : String
  content : String
deriving DecidableEq, Repr

/-- Result of `chat_completion`; the code only reads `result["content"]`. -/
structure ChatResult where
  content : String
deriving DecidableEq, Repr

/-- The LLM collaborator (`BaseLlm`): `get_model` and `chat_completion`,
each of which may raise. -/
structure BaseLlm where
  get_model : Except String String
  chat_completion : List Message → Int → Except String ChatResult

/-- The `TokenCounter` helper: message token counting and the per-model
token limit, each of which may raise. -/
structure TokenCounterImpl where
  count_message_tokens : List Message → String → Except String Int
  token_limit : String → Except String Int

/-- The `AgentPromptBuilder` helper: renders a goal list as list items. -/
structure AgentPromptBuilderImpl where
  add_list_items_to_string : List String → String

/-- The resource manager: `write_file` returns a confirmation string or an
"Error"-prefixed string, and may also raise. -/
structure ResourceManager where
  write_file : String → String → Except String String

/-- The fields of `WriteSpecTool` that `_execute` reads. -/
structure WriteSpecTool where
  llm : BaseLlm
  goals : List String
  resource_manager : ResourceManager

/-- Externally visible collaborator calls performed by `_execute`. -/
inductive Event where
  | chatCall (messages : List Message) (maxTokens : Int)
  | writeCall (fileName : String) (content : String)
deriving DecidableEq, Repr

/-- The prompt template literal from `_execute` (lines 67-79). -/
def promptTemplate : String :=
  "You are a super smart developer who has been asked to make a specification for a program.\n        \n            Your high-level goal is:\n            {goals}\n        \n            Please keep in mind the following when creating the specification:\n            1. Be super explicit about what the program should do, which features it should have, and give details about anything that might be unclear.\n            2. Lay out the names of the core classes, functions, methods that will be necessary, as well as a quick comment on their purpose.\n            3. List all non-standard dependencies that will have to be used.\n        \n            Write a specification for the following task:\n            {task}\n            "

/-- Fixed suffix appended on the success path (line 91). -/
def successSuffix : String :=
  "Specification generated and saved successfully"

/-- Prefix of the message returned by the top-level exception handler
(line 97). -/
def errWrap (e : String) : String :=
  "Error generating specification: " ++ e

/-- The filled prompt: `\x7bgoals\x7d` replaced by the rendered goal list,
then `\x7btask\x7d` replaced by the task description (lines 80-81). -/
def filledPrompt (apb : AgentPromptBuilderImpl) (goals : List String)
    (task_description : String) : String :=
  pyReplace (pyReplace promptTemplate "{goals}"
    (apb.add_list_items_to_string goals)) "{task}" task_description

/-- The message list sent to the LLM: one system message (line 82). -/
def specMessages (apb : AgentPromptBuilderImpl) (goals : List String)
    (task_description : String) : List Message :=
  [⟨"system", filledPrompt apb goals task_description⟩]

/-- Shallow embedding of `WriteSpecTool._execute` (lines 55-97).  Returns the
string `_execute` returns together with the trace of chat/write calls it
performed.  Each `match … | .error e` branch is a raised exception
propagating to the `except` handler, which returns `errWrap e`. -/
def WriteSpecTool.execute (tc : TokenCounterImpl) (apb : AgentPromptBuilderImpl)
    (tool : WriteSpecTool) (task_description spec_file_name : String) :
    String × List Event :=
  let messages := specMessages apb tool.goals task_description
  match tool.llm.get_model with
  | .error e => (errWrap e, [])
  | .ok model =>
    match tc.count_message_tokens messages model with
    | .error e => (errWrap e, [])
    | .ok total_tokens =>
      match tool.llm.get_model with
      | .error e => (errWrap e, [])
      | .ok model2 =>
        match tc.token_limit model2 with
        | .error e => (errWrap e, [])
        | .ok token_limit =>
          let maxTokens := token_limit - total_tokens - 100
          match tool.llm.chat_completion messages maxTokens with
          | .error e => (errWrap e, [.chatCall messages maxTokens])
          | .ok result =>
            match tool.resource_manager.write_file spec_file_name result.content with
            | .error e =>
              (errWrap e,
               [.chatCall messages maxTokens,
                .writeCall spec_file_name result.content])
            | .ok write_result =>
              if ¬ pyStartsWith write_result "Error" then
                (result.content ++ successSuffix,
                 [.chatCall messages maxTokens,
                  .writeCall spec_file_name result.content])
              else
                (write_result,
                 [.chatCall messages maxTokens,
                  .writeCall spec_file_name result.content])

/-- The body of the `try` block of `_execute`, written in the `Except` monad:
the computation before the exception handler is applied. -/
def WriteSpecTool.executeBody (tc : TokenCounterImpl)
    (apb : AgentPromptBuilderImpl) (tool : WriteSpecTool)
    (task_description spec_file_name : String) : Except String String := do
  let messages := specMessages apb tool.goals task_description
  let model ← tool.llm.get_model
  let total_tokens ← tc.count_message_tokens messages model
  let model2 ← tool.llm.get_model
  let token_limit ← tc.token_limit model2
  let result ← tool.llm.chat_completion messages (token_limit - total_tokens - 100)
  let write_result ← tool.resource_manager.write_file spec_file_name result.content
  if ¬ pyStartsWith write_result "Error" then
    pure (result.content ++ successSuffix)
  else
    pure write_result

set_option maxRecDepth 100000

/-- The part of `promptTemplate` before the `\x7bgoals\x7d` placeholder. -/
def templatePre : String :=
  "You are a super smart developer who has been asked to make a specification for a program.\n        \n            Your high-level goal is:\n            "

/-- The part of `promptTemplate` after the `\x7bgoals\x7d` placeholder. -/
def templatePost : String :=
  "\n        \n            Please keep in mind the following when creating the specification:\n            1. Be super explicit about what the program should do, which features it should have, and give details about anything that might be unclear.\n            2. Lay out the names of the core classes, functions, methods that will be necessary, as well as a quick comment on their purpose.\n            3. List all non-standard dependencies that will have to be used.\n        \n            Write a specification for the following task:\n            {task}\n            "

/-- Recognizer for chat-completion events. -/
def isChatCall : Event → Bool
  | .chatCall _ _ => true
  | _ => false

/-- Recognizer for file-write events. -/
def isWriteCall : Event → Bool
  | .writeCall _ _ => true
  | _ => false

/-- A token counter answering 5 tokens counted and a limit of 1000. -/
def tcOk : TokenCounterImpl := ⟨fun _ _ => .ok 5, fun _ => .ok 1000⟩

/-- A token counter answering 10 tokens counted and a limit of 50. -/
def tcSmall : TokenCounterImpl := ⟨fun _ _ => .ok 10, fun _ => .ok 50⟩

/-- A goal renderer producing a fixed rendering. -/
def apbOk : AgentPromptBuilderImpl := ⟨fun _ => "- goal one"⟩

/-- A goal renderer whose rendering contains the literal `\x7btask\x7d`. -/
def apbTaskInGoals : AgentPromptBuilderImpl := ⟨fun _ => "A {task} B"⟩

/-- An LLM that answers model "gpt-4" and content "SPEC". -/
def llmOk : BaseLlm := ⟨.ok "gpt-4", fun _ _ => .ok ⟨"SPEC"⟩⟩

/-- An LLM whose chat completion raises. -/
def llmRaise : BaseLlm := ⟨.ok "gpt-4", fun _ _ => .error "boom"⟩

/-- A resource manager whose write succeeds. -/
def rmOk : ResourceManager := ⟨fun _ _ => .ok "written"⟩

/-- A resource manager returning an "Error"-prefixed string. -/
def rmErrString : ResourceManager := ⟨fun _ _ => .ok "Error: disk full"⟩

/-- A tool whose collaborators all succeed. -/
def toolOk : WriteSpecTool := ⟨llmOk, ["g1"], rmOk⟩

/-- A tool whose writer reports an "Error"-prefixed string. -/
def toolWriteErr : WriteSpecTool := ⟨llmOk, ["g1"], rmErrString⟩

/-- A tool whose LLM call raises. -/
def toolChatRaise : WriteSpecTool := ⟨llmRaise, ["g1"], rmOk⟩


lemma strContains_nil (l : List Char) : strContains l [] = true := by
  cases l <;> simp [strContains]

lemma strContains_self (l : List Char) : strContains l l = true := by
  cases l with
  | nil => simp [strContains]
  | cons c rest => simp [strContains]

lemma strContains_append_right (a b s : List Char) (h : strContains b s = true) :
    strContains (a ++ b) s = true := by
  induction a with
  | nil => simpa using h
  | cons c rest ih =>
      simp only [List.cons_append, strContains, Bool.or_eq_true]
      exact Or.inr ih

lemma strContains_append_left (a b s : List Char) (h : strContains a s = true) :
    strContains (a ++ b) s = true := by
  induction a with
  | nil =>
      cases s with
      | nil => exact strContains_nil b
      | cons x xs => simp [strContains] at h
  | cons c rest ih =>
      simp only [List.cons_append, strContains, Bool.or_eq_true] at h ⊢
      cases h with
      | inl h =>
          refine Or.inl ?_
          rw [ List.isPrefixOf_iff_prefix] at h ⊢
          exact h.trans ⟨b, rfl⟩
      | inr h => exact Or.inr (ih h)

lemma strContains_trans (big mid sub : List Char) (h1 : strContains big mid = true)
    (h2 : strContains mid sub = true) : strContains big sub = true := by
  induction big with
  | nil =>
      cases mid with
      | nil => exact h2
      | cons m ms => simp [strContains] at h1
  | cons c rest ih =>
      simp only [strContains, Bool.or_eq_true] at h1 ⊢
      cases h1 with
      | inl h =>
          rw [ List.isPrefixOf_iff_prefix] at h
          obtain ⟨t, ht⟩ := h
          have hc : strContains (mid ++ t) sub = true := strContains_append_left _ _ _ h2
          rw [ht] at hc
          simpa [strContains, Bool.or_eq_true] using hc
      | inr h => exact Or.inr (ih h)

lemma replaceFuel_contains_new (old new : List Char) (hne : old ≠ []) :
    ∀ fuel l, l.length ≤ fuel → strContains l old = true →
      strContains (replaceFuel fuel l old new) new = true := by
  intro fuel
  induction fuel with
  | zero =>
      intro l hl hocc
      have hnil : l = [] := List.length_eq_zero.mp (Nat.le_zero.mp hl)
      subst hnil
      cases old with
      | nil => exact absurd rfl hne
      | cons o os => simp [strContains] at hocc
  | succ fuel ih =>
      intro l hl hocc
      cases l with
      | nil =>
          cases old with
          | nil => exact absurd rfl hne
          | cons o os => simp [strContains] at hocc
      | cons c rest =>
          cases hp : List.isPrefixOf old (c :: rest) with
          | true =>
              simp only [replaceFuel, hp, if_true]
              exact strContains_append_left _ _ _ (strContains_self new)
          | false =>
              simp only [replaceFuel, hp, Bool.false_eq_true, if_false]
              have hocc' : strContains rest old = true := by
                simpa [strContains, hp] using hocc
              have hlen : rest.length ≤ fuel := Nat.le_of_succ_le_succ (by simpa using hl)
              simp only [strContains, Bool.or_eq_true]
              exact Or.inr (ih rest hlen hocc')

lemma template_goals_split (g : String) :
    (pyReplace promptTemplate "{goals}" g).data
      = templatePre.data ++ g.data ++ templatePost.data := rfl


lemma execute_trace_shape (tc : TokenCounterImpl) (apb : AgentPromptBuilderImpl)
    (tool : WriteSpecTool) (td sfn : String) :
    (WriteSpecTool.execute tc apb tool td sfn).2 = [] ∨
    (∃ m t l e, tool.llm.get_model = .ok m ∧
      tc.count_message_tokens (specMessages apb tool.goals td) m = .ok t ∧
      tc.token_limit m = .ok l ∧
      tool.llm.chat_completion (specMessages apb tool.goals td) (l - t - 100) = .error e ∧
      (WriteSpecTool.execute tc apb tool td sfn).2
        = [Event.chatCall (specMessages apb tool.goals td) (l - t - 100)]) ∨
    (∃ m t l res, tool.llm.get_model = .ok m ∧
      tc.count_message_tokens (specMessages apb tool.goals td) m = .ok t ∧
      tc.token_limit m = .ok l ∧
      tool.llm.chat_completion (specMessages apb tool.goals td) (l - t - 100) = .ok res ∧
      (WriteSpecTool.execute tc apb tool td sfn).2
        = [Event.chatCall (specMessages apb tool.goals td) (l - t - 100),
           Event.writeCall sfn res.content]) := by
  cases hm : tool.llm.get_model with
  | error e => exact Or.inl (by simp [WriteSpecTool.execute, hm])
  | ok m =>
    cases hc : tc.count_message_tokens (specMessages apb tool.goals td) m with
    | error e => exact Or.inl (by simp [WriteSpecTool.execute, hm, hc])
    | ok t =>
      cases hl : tc.token_limit m with
      | error e => exact Or.inl (by simp [WriteSpecTool.execute, hm, hc, hl])
      | ok l =>
        cases hch : tool.llm.chat_completion (specMessages apb tool.goals td) (l - t - 100) with
        | error e =>
          exact Or.inr (Or.inl ⟨m, t, l, e, rfl, hc, hl, hch,
            by simp [WriteSpecTool.execute, hm, hc, hl, hch]⟩)
        | ok res =>
          refine Or.inr (Or.inr ⟨m, t, l, res, rfl, hc, hl, hch, ?_⟩)
          cases hw : tool.resource_manager.write_file sfn res.content with
          | error e2 => simp [WriteSpecTool.execute, hm, hc, hl, hch, hw]
          | ok w =>
            cases hb : pyStartsWith w "Error" with
            | true => simp [WriteSpecTool.execute, hm, hc, hl, hch, hw, hb]
            | false => simp [WriteSpecTool.execute, hm, hc, hl, hch, hw, hb]

/-- Claim C1: when `chat_completion` returns content `c` and `write_file`
returns a string that does not start with "Error", `_execute` returns
exactly `c` concatenated with "Specification generated and saved
successfully", with no separator between them. -/
theorem execute_success_returns_content_plus_suffix
    (tc : TokenCounterImpl) (apb : AgentPromptBuilderImpl) (tool : WriteSpecTool)
    (task_description spec_file_name m : String) (t l : Int) (c w : String)
    (hm : tool.llm.get_model = .ok m)
    (hc : tc.count_message_tokens (specMessages apb tool.goals task_description) m = .ok t)
    (hl : tc.token_limit m = .ok l)
    (hchat : tool.llm.chat_completion (specMessages apb tool.goals task_description)
      (l - t - 100) = .ok ⟨c⟩)
    (hwrite : tool.resource_manager.write_file spec_file_name c = .ok w)
    (hw : pyStartsWith w "Error" = false) :
    (WriteSpecTool.execute tc apb tool task_description spec_file_name).1
      = c ++ successSuffix := by
  simp [WriteSpecTool.execute, hm, hc, hl, hchat, hwrite, hw]

/-- Witness for C1: a run where every collaborator succeeds returns the
LLM content followed directly by the success suffix. -/
theorem execute_success_returns_content_plus_suffix_witness :
    (WriteSpecTool.execute tcOk apbOk toolOk "mytask" "spec.md").1
      = "SPEC" ++ successSuffix :=
  execute_success_returns_content_plus_suffix tcOk apbOk toolOk "mytask" "spec.md"
    "gpt-4" 5 1000 "SPEC" "written" rfl rfl rfl rfl rfl rfl

/-- Claim C2: when `write_file` returns a string, the success branch is taken
if and only if that string does not start with "Error"; on an "Error"-prefixed
string the writer string is returned verbatim, without the LLM content
appended. -/
theorem execute_write_error_returned_verbatim
    (tc : TokenCounterImpl) (apb : AgentPromptBuilderImpl) (tool : WriteSpecTool)
    (task_description spec_file_name m : String) (t l : Int) (c w : String)
    (hm : tool.llm.get_model = .ok m)
    (hc : tc.count_message_tokens (specMessages apb tool.goals task_description) m = .ok t)
    (hl : tc.token_limit m = .ok l)
    (hchat : tool.llm.chat_completion (specMessages apb tool.goals task_description)
      (l - t - 100) = .ok ⟨c⟩)
    (hwrite : tool.resource_manager.write_file spec_file_name c = .ok w) :
    (WriteSpecTool.execute tc apb tool task_description spec_file_name).1
      = if pyStartsWith w "Error" = true then w else c ++ successSuffix := by
  cases hb : pyStartsWith w "Error" with
  | true => simp [WriteSpecTool.execute, hm, hc, hl, hchat, hwrite, hb]
  | false => simp [WriteSpecTool.execute, hm, hc, hl, hchat, hwrite, hb]

/-- Witness for C2: a run whose writer answers "Error: disk full" returns
that string verbatim. -/
theorem execute_write_error_returned_verbatim_witness :
    (WriteSpecTool.execute tcOk apbOk toolWriteErr "mytask" "spec.md").1
      = if pyStartsWith "Error: disk full" "Error" = true then "Error: disk full"
        else "SPEC" ++ successSuffix :=
  execute_write_error_returned_verbatim tcOk apbOk toolWriteErr "mytask" "spec.md"
    "gpt-4" 5 1000 "SPEC" "Error: disk full" rfl rfl rfl rfl rfl

/-- Claim C3: `_execute` never lets an exception escape: its return value is
the value of the try block when no collaborator raises, and otherwise the string
"Error generating specification: " followed by the rendering of the raised
exception. -/
theorem execute_catches_every_exception
    (tc : TokenCounterImpl) (apb : AgentPromptBuilderImpl) (tool : WriteSpecTool)
    (task_description spec_file_name : String) :
    (WriteSpecTool.execute tc apb tool task_description spec_file_name).1
      = match WriteSpecTool.executeBody tc apb tool task_description spec_file_name with
        | .ok r => r
        | .error e => errWrap e := by
  cases hm : tool.llm.get_model with
  | error e => simp [WriteSpecTool.execute, WriteSpecTool.executeBody, Bind.bind, Except.bind, hm]
  | ok m =>
    cases hc : tc.count_message_tokens (specMessages apb tool.goals task_description) m with
    | error e => simp [WriteSpecTool.execute, WriteSpecTool.executeBody, Bind.bind, Except.bind, hm, hc]
    | ok t =>
      cases hl : tc.token_limit m with
      | error e => simp [WriteSpecTool.execute, WriteSpecTool.executeBody, Bind.bind, Except.bind, hm, hc, hl]
      | ok l =>
        cases hch : tool.llm.chat_completion
            (specMessages apb tool.goals task_description) (l - t - 100) with
        | error e =>
          simp [WriteSpecTool.execute, WriteSpecTool.executeBody, Bind.bind, Except.bind, hm, hc, hl, hch]
        | ok res =>
          cases hw : tool.resource_manager.write_file spec_file_name res.content with
          | error e2 =>
            simp [WriteSpecTool.execute, WriteSpecTool.executeBody, Bind.bind, Except.bind, hm, hc, hl, hch, hw]
          | ok w =>
            cases hb : pyStartsWith w "Error" with
            | true =>
              simp [WriteSpecTool.execute, WriteSpecTool.executeBody, Bind.bind, Except.bind, Pure.pure, Except.pure, hm, hc, hl, hch, hw, hb]
            | false =>
              simp [WriteSpecTool.execute, WriteSpecTool.executeBody, Bind.bind, Except.bind, Pure.pure, Except.pure, hm, hc, hl, hch, hw, hb]

/-- Claim C4: whenever the LLM call is reached, the max_tokens argument
passed to `chat_completion` equals `token_limit(model)` minus
`count_message_tokens(messages, model)` minus 100, where `messages` is the
single system message holding the filled prompt. -/
theorem chat_called_with_computed_budget
    (tc : TokenCounterImpl) (apb : AgentPromptBuilderImpl) (tool : WriteSpecTool)
    (td sfn m : String) (t l : Int) (ms : List Message) (mt : Int)
    (hm : tool.llm.get_model = .ok m)
    (hc : tc.count_message_tokens (specMessages apb tool.goals td) m = .ok t)
    (hl : tc.token_limit m = .ok l)
    (hmem : Event.chatCall ms mt ∈ (WriteSpecTool.execute tc apb tool td sfn).2) :
    Event.chatCall (specMessages apb tool.goals td) (l - t - 100)
        ∈ (WriteSpecTool.execute tc apb tool td sfn).2 ∧
    mt = l - t - 100 ∧ ms = specMessages apb tool.goals td := by
  rcases execute_trace_shape tc apb tool td sfn with
    h0 | ⟨m1, t1, l1, e, hm1, hc1, hl1, hch1, htr⟩ |
      ⟨m1, t1, l1, res, hm1, hc1, hl1, hch1, htr⟩
  · rw [h0] at hmem; simp at hmem
  · rw [hm] at hm1; injection hm1 with hx; subst hx
    rw [hc] at hc1; injection hc1 with hx; subst hx
    rw [hl] at hl1; injection hl1 with hx; subst hx
    rw [htr] at hmem ⊢
    simp at hmem
    simp [hmem]
  · rw [hm] at hm1; injection hm1 with hx; subst hx
    rw [hc] at hc1; injection hc1 with hx; subst hx
    rw [hl] at hl1; injection hl1 with hx; subst hx
    rw [htr] at hmem ⊢
    simp at hmem
    simp [hmem]

/-- Witness for C4: with a limit of 1000 and a count of 5, the chat call
receives a budget of 895 tokens. -/
theorem chat_called_with_computed_budget_witness :
    Event.chatCall (specMessages apbOk toolOk.goals "mytask") ((1000 : Int) - 5 - 100)
        ∈ (WriteSpecTool.execute tcOk apbOk toolOk "mytask" "spec.md").2 ∧
    ((1000 : Int) - 5 - 100) = (1000 : Int) - 5 - 100 ∧
    specMessages apbOk toolOk.goals "mytask" = specMessages apbOk toolOk.goals "mytask" :=
  chat_called_with_computed_budget tcOk apbOk toolOk "mytask" "spec.md" "gpt-4" 5 1000
    (specMessages apbOk toolOk.goals "mytask") ((1000 : Int) - 5 - 100) rfl rfl rfl
    (by simp [WriteSpecTool.execute, tcOk, apbOk, toolOk, llmOk, rmOk, apply_ite, ite_self])

/-- Claim C5: every message list handed to `chat_completion` is exactly one
system-role message whose content is the fixed template with `\x7bgoals\x7d`
replaced by the rendered goal list and then `\x7btask\x7d` replaced by the
task description. -/
theorem prompt_sent_as_single_system_message
    (tc : TokenCounterImpl) (apb : AgentPromptBuilderImpl) (tool : WriteSpecTool)
    (td sfn : String) (ms : List Message) (mt : Int)
    (hmem : Event.chatCall ms mt ∈ (WriteSpecTool.execute tc apb tool td sfn).2) :
    ms = [⟨"system",
      pyReplace (pyReplace promptTemplate "{goals}"
        (apb.add_list_items_to_string tool.goals)) "{task}" td⟩] := by
  rcases execute_trace_shape tc apb tool td sfn with
    h0 | ⟨m1, t1, l1, e, hm1, hc1, hl1, hch1, htr⟩ |
      ⟨m1, t1, l1, res, hm1, hc1, hl1, hch1, htr⟩
  · rw [h0] at hmem; simp at hmem
  · rw [htr] at hmem; simp at hmem; rw [hmem.1]; rfl
  · rw [htr] at hmem; simp at hmem; rw [hmem.1]; rfl

/-- Witness for C5: the message list of the chat call in a successful run is
the single system message with the doubly substituted template. -/
theorem prompt_sent_as_single_system_message_witness :
    specMessages apbOk toolOk.goals "mytask" = [⟨"system",
      pyReplace (pyReplace promptTemplate "{goals}"
        (apbOk.add_list_items_to_string toolOk.goals)) "{task}" "mytask"⟩] :=
  prompt_sent_as_single_system_message tcOk apbOk toolOk "mytask" "spec.md"
    (specMessages apbOk toolOk.goals "mytask") ((1000 : Int) - 5 - 100)
    (by simp [WriteSpecTool.execute, tcOk, apbOk, toolOk, llmOk, rmOk, apply_ite, ite_self])

/-- Claim C6: a single invocation of `_execute` performs at most one
`chat_completion` call and at most one `write_file` call. -/
theorem at_most_one_chat_and_one_write
    (tc : TokenCounterImpl) (apb : AgentPromptBuilderImpl) (tool : WriteSpecTool)
    (td sfn : String) :
    (WriteSpecTool.execute tc apb tool td sfn).2.countP isChatCall ≤ 1 ∧
    (WriteSpecTool.execute tc apb tool td sfn).2.countP isWriteCall ≤ 1 := by
  rcases execute_trace_shape tc apb tool td sfn with
    h0 | ⟨m1, t1, l1, e, hm1, hc1, hl1, hch1, htr⟩ |
      ⟨m1, t1, l1, res, hm1, hc1, hl1, hch1, htr⟩
  · rw [h0]; simp
  · rw [htr]; simp [List.countP_cons, isChatCall, isWriteCall]
  · rw [htr]; simp [List.countP_cons, isChatCall, isWriteCall]

/-- Claim C7: when `get_model`, token counting, the limit lookup, or
`chat_completion` raises, `write_file` is never called. -/
theorem no_write_when_generation_raises
    (tc : TokenCounterImpl) (apb : AgentPromptBuilderImpl) (tool : WriteSpecTool)
    (td sfn f c : String)
    (h : (∃ e, tool.llm.get_model = .error e) ∨
         (∃ m e, tool.llm.get_model = .ok m ∧
            tc.count_message_tokens (specMessages apb tool.goals td) m = .error e) ∨
         (∃ m e, tool.llm.get_model = .ok m ∧ tc.token_limit m = .error e) ∨
         (∃ m t l e, tool.llm.get_model = .ok m ∧
            tc.count_message_tokens (specMessages apb tool.goals td) m = .ok t ∧
            tc.token_limit m = .ok l ∧
            tool.llm.chat_completion (specMessages apb tool.goals td)
              (l - t - 100) = .error e)) :
    Event.writeCall f c ∉ (WriteSpecTool.execute tc apb tool td sfn).2 := by
  intro hmem
  rcases execute_trace_shape tc apb tool td sfn with
    h0 | ⟨m1, t1, l1, e, hm1, hc1, hl1, hch1, htr⟩ |
      ⟨m1, t1, l1, res, hm1, hc1, hl1, hch1, htr⟩
  · rw [h0] at hmem; simp at hmem
  · rw [htr] at hmem; simp at hmem
  · rcases h with ⟨e1, he⟩ | ⟨m2, e1, hm2, he⟩ | ⟨m2, e1, hm2, he⟩ |
      ⟨m2, t2, l2, e1, hm2, hc2, hl2, he⟩
    · rw [hm1] at he; simp at he
    · rw [hm1] at hm2; injection hm2 with hx; subst hx
      rw [hc1] at he; simp at he
    · rw [hm1] at hm2; injection hm2 with hx; subst hx
      rw [hl1] at he; simp at he
    · rw [hm1] at hm2; injection hm2 with hx; subst hx
      rw [hc1] at hc2; injection hc2 with hx; subst hx
      rw [hl1] at hl2; injection hl2 with hx; subst hx
      rw [hch1] at he; simp at he

/-- Witness for C7: when the LLM call raises, no write event occurs. -/
theorem no_write_when_generation_raises_witness :
    Event.writeCall "f.txt" "SPEC"
      ∉ (WriteSpecTool.execute tcOk apbOk toolChatRaise "mytask" "spec.md").2 :=
  no_write_when_generation_raises tcOk apbOk toolChatRaise "mytask" "spec.md" "f.txt" "SPEC"
    (Or.inr (Or.inr (Or.inr ⟨"gpt-4", 5, 1000, "boom", rfl, rfl, rfl, rfl⟩)))

/-- Claim C9: the token budget is not guarded: when the limit minus the
count is at most 100, `chat_completion` is still invoked, with a zero or
negative max_tokens, and when that call returns normally execution proceeds
to the file write without any budget error. -/
theorem no_token_budget_guard
    (tc : TokenCounterImpl) (apb : AgentPromptBuilderImpl) (tool : WriteSpecTool)
    (td sfn m : String) (t l : Int) (res : ChatResult)
    (hm : tool.llm.get_model = .ok m)
    (hc : tc.count_message_tokens (specMessages apb tool.goals td) m = .ok t)
    (hl : tc.token_limit m = .ok l)
    (hbudget : l - t ≤ 100)
    (hch : tool.llm.chat_completion (specMessages apb tool.goals td)
      (l - t - 100) = .ok res) :
    l - t - 100 ≤ 0 ∧
    Event.chatCall (specMessages apb tool.goals td) (l - t - 100)
        ∈ (WriteSpecTool.execute tc apb tool td sfn).2 ∧
    Event.writeCall sfn res.content
        ∈ (WriteSpecTool.execute tc apb tool td sfn).2 := by
  refine ⟨by omega, ?_, ?_⟩ <;>
  · cases hw : tool.resource_manager.write_file sfn res.content with
    | error e => simp [WriteSpecTool.execute, hm, hc, hl, hch, hw]
    | ok w =>
      cases hb : pyStartsWith w "Error" with
      | true => simp [WriteSpecTool.execute, hm, hc, hl, hch, hw, hb]
      | false => simp [WriteSpecTool.execute, hm, hc, hl, hch, hw, hb]

/-- Witness for C9: with a limit of 50 and a count of 10 the chat call is
made with max_tokens -60 and the write still happens. -/
theorem no_token_budget_guard_witness :
    (50 : Int) - 10 - 100 ≤ 0 ∧
    Event.chatCall (specMessages apbOk toolOk.goals "mytask") ((50 : Int) - 10 - 100)
        ∈ (WriteSpecTool.execute tcSmall apbOk toolOk "mytask" "spec.md").2 ∧
    Event.writeCall "spec.md" (ChatResult.mk "SPEC").content
        ∈ (WriteSpecTool.execute tcSmall apbOk toolOk "mytask" "spec.md").2 :=
  no_token_budget_guard tcSmall apbOk toolOk "mytask" "spec.md" "gpt-4" 10 50 ⟨"SPEC"⟩
    rfl rfl rfl (by decide) rfl

lemma prompt1_contains_task (g : String) :
    strContains (pyReplace promptTemplate "{goals}" g).data "{task}".data = true := by
  rw [template_goals_split]
  exact strContains_append_right _ _ _ (by decide)

lemma filledPrompt_contains_task_description (apb : AgentPromptBuilderImpl)
    (goals : List String) (td : String) :
    strContains (filledPrompt apb goals td).data td.data = true :=
  replaceFuel_contains_new "{task}".data td.data (by decide)
    (pyReplace promptTemplate "{goals}" (apb.add_list_items_to_string goals)).data.length
    (pyReplace promptTemplate "{goals}" (apb.add_list_items_to_string goals)).data
    (le_refl _) (prompt1_contains_task _)

/-- Claim C8: the `\x7bgoals\x7d` substitution happens before the
`\x7btask\x7d` substitution, so a `\x7bgoals\x7d` inside the task
description survives into the final prompt (it is inserted after the goals
pass and never rescanned), while a literal `\x7btask\x7d` inside the
rendered goals list is replaced by the task description, as shown on a
rendering "A \x7btask\x7d B" with task "TASKX": the final prompt contains
"A TASKX B" and no `\x7btask\x7d` at all. -/
theorem goals_placeholder_replacement_order
    (apb : AgentPromptBuilderImpl) (goals : List String) (td : String)
    (hgoals : strContains td.data "{goals}".data = true) :
    strContains (filledPrompt apb goals td).data "{goals}".data = true ∧
    strContains (filledPrompt apbTaskInGoals [] "TASKX").data "A TASKX B".data = true ∧
    strContains (filledPrompt apbTaskInGoals [] "TASKX").data "{task}".data = false ∧
    strContains (filledPrompt apbTaskInGoals [] "T{goals}U").data "T{goals}U".data = true :=
  ⟨strContains_trans _ _ _ (filledPrompt_contains_task_description apb goals td) hgoals,
   by decide, by decide, by decide⟩

/-- Witness for C8: instantiated at a task description that contains the
literal `\x7bgoals\x7d`. -/
theorem goals_placeholder_replacement_order_witness :
    strContains "T{goals}U".data "{goals}".data = true ∧
    (strContains (filledPrompt apbOk ["g1"] "T{goals}U").data "{goals}".data = true ∧
     strContains (filledPrompt apbTaskInGoals [] "TASKX").data "A TASKX B".data = true ∧
     strContains (filledPrompt apbTaskInGoals [] "TASKX").data "{task}".data = false ∧
     strContains (filledPrompt apbTaskInGoals [] "T{goals}U").data "T{goals}U".data = true) :=
  ⟨by decide, goals_placeholder_replacement_order apbOk ["g1"] "T{goals}U" (by decide)⟩
